import Mathlib

/-!
Verification of the shopping-cart / tax-calculation code of the
node-testing repository: `src/cart-summary.js` (the `CartSummary`
constructor with `getSubtotal` and `getTax`) and the part-2 tax module
(`calculate(subtotal, state, done)`).

JavaScript numbers that can be `NaN` are modelled as `Option Rat`:
`none` stands for `NaN` (and for the `undefined` of a missing object
field, which JS arithmetic immediately turns into `NaN`), `some q` for
a finite numeric value. The HTTP transport is modelled as a function
from the outgoing request to an optional `(error, statusCode, body)`
triple; `none` means the response never arrives. Each operation
returns the list of requests it issued and the list of values it
passed to its completion callback, in order.
-/

namespace NodeTesting

/-- A JavaScript numeric value: `none` is `NaN`, `some q` a finite number. -/
abbrev JSNum := Option Rat

/-- JS multiplication on such values: `NaN` (and `undefined`, coerced to
`NaN`) is absorbing. -/
def jsMul : JSNum → JSNum → JSNum
  | some a, some b => some (a * b)
  | _, _ => none

/-- JS addition on such values: `NaN` is absorbing. -/
def jsAdd : JSNum → JSNum → JSNum
  | some a, some b => some (a + b)
  | _, _ => none

/-- A cart line item as the tests construct them: an `id`, a `quantity`
and a `price` field. A field holding `none` models a missing field
(reading it yields `undefined`). -/
structure LineItem where
  id : Int
  quantity : JSNum
  price : JSNum

/-- One step of the `reduce` inside `getSubtotal`:
`subtotal += (item.quantity * item.price)`. -/
def subtotalStep (subtotal : JSNum) (item : LineItem) : JSNum :=
  jsAdd subtotal (jsMul item.quantity item.price)

/-- `CartSummary.prototype.getSubtotal` from `src/cart-summary.js`:
if `this._items.length` is truthy, reduce over the items starting
from 0, adding `item.quantity * item.price`; otherwise return 0. -/
def getSubtotal (items : List LineItem) : JSNum :=
  if items.length ≠ 0 then
    items.foldl subtotalStep (some 0)
  else
    some 0

/-- The spec formula for the subtotal, `Σ quantity_i × price_i`, reading
each field as its numeric value (`0` for a missing field; the claims
using this definition assume the fields present). -/
def specSubtotal (items : List LineItem) : Rat :=
  (items.map (fun it => it.quantity.getD 0 * it.price.getD 0)).sum

theorem getSubtotal_eq_foldl (items : List LineItem) :
    getSubtotal items = items.foldl subtotalStep (some 0) := by
  cases items <;> simp [getSubtotal]

theorem foldl_subtotal_wf (items : List LineItem)
    (h : ∀ it ∈ items, it.quantity.isSome ∧ it.price.isSome) :
    ∀ b : Rat, items.foldl subtotalStep (some b) = some (b + specSubtotal items) := by
  induction items with
  | nil => intro b; simp [specSubtotal]
  | cons it rest ih =>
    intro b
    obtain ⟨hq, hp⟩ := h it (by simp)
    obtain ⟨q, hq⟩ := Option.isSome_iff_exists.mp hq
    obtain ⟨p, hp⟩ := Option.isSome_iff_exists.mp hp
    have hstep : subtotalStep (some b) it = some (b + q * p) := by
      simp [subtotalStep, jsMul, jsAdd, hq, hp]
    rw [List.foldl_cons, hstep, ih (fun x hx => h x (List.mem_cons_of_mem _ hx))]
    simp [specSubtotal, hq, hp, add_assoc]

/-- C1: for every item list whose entries have non-negative integer
quantities and non-negative prices, `getSubtotal` returns the sum over
all items of quantity times price, and on the empty list it returns 0. -/
theorem getSubtotal_sums (items : List LineItem)
    (h : ∀ it ∈ items, (∃ n : ℕ, it.quantity = some (n : Rat)) ∧
        (∃ p : Rat, it.price = some p ∧ 0 ≤ p)) :
    getSubtotal items = some (specSubtotal items) ∧ getSubtotal [] = some 0 := by
  constructor
  · rw [getSubtotal_eq_foldl]
    have hwf : ∀ it ∈ items, it.quantity.isSome ∧ it.price.isSome := by
      intro it hit
      obtain ⟨⟨n, hn⟩, ⟨p, hp, _⟩⟩ := h it hit
      exact ⟨by simp [hn], by simp [hp]⟩
    simpa using foldl_subtotal_wf items hwf 0
  · rfl

/-- Witness for C1 at the tutorial scenario: quantities 4, 2, 1 at
prices 50, 30, 40 give subtotal 300. -/
theorem getSubtotal_sums_witness :
    getSubtotal [⟨1, some 4, some 50⟩, ⟨2, some 2, some 30⟩, ⟨3, some 1, some 40⟩] =
      some (specSubtotal
        [⟨1, some 4, some 50⟩, ⟨2, some 2, some 30⟩, ⟨3, some 1, some 40⟩]) ∧
    getSubtotal [] = some 0 := by
  refine getSubtotal_sums _ ?_
  intro it hit
  simp only [List.mem_cons, List.not_mem_nil, or_false] at hit
  rcases hit with h | h | h <;> subst h
  · exact ⟨⟨4, by norm_num⟩, 50, rfl, by norm_num⟩
  · exact ⟨⟨2, by norm_num⟩, 30, rfl, by norm_num⟩
  · exact ⟨⟨1, by norm_num⟩, 40, rfl, by norm_num⟩

theorem jsAdd_zero_right (a : JSNum) : jsAdd a (some 0) = a := by
  cases a <;> simp [jsAdd]

theorem jsAdd_zero_left (a : JSNum) : jsAdd (some 0) a = a := by
  cases a <;> simp [jsAdd]

theorem jsAdd_comm (a b : JSNum) : jsAdd a b = jsAdd b a := by
  cases a <;> cases b <;> simp [jsAdd, add_comm]

theorem jsAdd_assoc (a b c : JSNum) : jsAdd (jsAdd a b) c = jsAdd a (jsAdd b c) := by
  cases a <;> cases b <;> cases c <;> simp [jsAdd, add_assoc]

theorem foldl_subtotal_start (items : List LineItem) :
    ∀ b : JSNum, items.foldl subtotalStep b =
      jsAdd b (items.foldl subtotalStep (some 0)) := by
  induction items with
  | nil => intro b; simp [jsAdd_zero_right]
  | cons it rest ih =>
    intro b
    rw [List.foldl_cons, List.foldl_cons, ih (subtotalStep b it),
      ih (subtotalStep (some 0) it)]
    simp only [subtotalStep, jsAdd_zero_left, jsAdd_assoc]

/-- C4 counterexample: an item with a missing quantity field does not
contribute 0 — `undefined * price` is `NaN`, and it poisons the whole
subtotal, so the result differs from the subtotal with the item removed. -/
theorem getSubtotal_missing_poisons :
    getSubtotal [⟨1, none, some 5⟩] = none ∧
    getSubtotal [] = some 0 ∧
    getSubtotal [⟨1, none, some 5⟩] ≠ getSubtotal [] := by
  refine ⟨rfl, rfl, ?_⟩
  decide

/-- C4 (amended): an item whose quantity and price fields are both
present and at least one of them is 0 contributes 0 to the subtotal
(and nothing is thrown — the embedded computation is total): the
subtotal of a list containing such an item equals the subtotal of the
same list with that item removed. Missing fields are excluded: they
yield `NaN` (see the counterexample). -/
theorem getSubtotal_zero_item (it : LineItem) (xs ys : List LineItem)
    (h : (∃ p : Rat, it.quantity = some 0 ∧ it.price = some p) ∨
         (∃ q : Rat, it.quantity = some q ∧ it.price = some 0)) :
    getSubtotal (xs ++ it :: ys) = getSubtotal (xs ++ ys) := by
  have hc : jsMul it.quantity it.price = some 0 := by
    rcases h with ⟨p, hq, hp⟩ | ⟨q, hq, hp⟩ <;> simp [jsMul, hq, hp]
  rw [getSubtotal_eq_foldl, getSubtotal_eq_foldl, List.foldl_append,
    List.foldl_append, List.foldl_cons]
  rw [foldl_subtotal_start ys (subtotalStep (xs.foldl subtotalStep (some 0)) it),
    foldl_subtotal_start ys (xs.foldl subtotalStep (some 0))]
  simp [subtotalStep, hc, jsAdd_zero_right]

/-- Witness for C4 (amended): removing a zero-quantity item leaves the
subtotal of a two-item cart unchanged. -/
theorem getSubtotal_zero_item_witness :
    getSubtotal [⟨2, some 2, some 3⟩, ⟨1, some 0, some 5⟩] =
      getSubtotal [⟨2, some 2, some 3⟩] :=
  getSubtotal_zero_item ⟨1, some 0, some 5⟩ [⟨2, some 2, some 3⟩] []
    (Or.inl ⟨5, rfl, rfl⟩)

/-- C8: the subtotal is invariant under permutation of the item list,
and every occurrence of an item contributes independently — prepending
an item adds its own `quantity * price` to the subtotal of the rest,
regardless of whether its identifier already occurs in the rest (no
deduplication). -/
theorem getSubtotal_perm_and_dup (l₁ l₂ : List LineItem) (hp : l₁.Perm l₂) :
    getSubtotal l₁ = getSubtotal l₂ ∧
    ∀ (it : LineItem) (l : List LineItem),
      getSubtotal (it :: l) = jsAdd (jsMul it.quantity it.price) (getSubtotal l) := by
  constructor
  · rw [getSubtotal_eq_foldl, getSubtotal_eq_foldl]
    refine hp.foldl_eq' (fun x _ y _ z => ?_) (some 0)
    simp only [subtotalStep, jsAdd_assoc,
      jsAdd_comm (jsMul x.quantity x.price) (jsMul y.quantity y.price)]
  · intro it l
    rw [getSubtotal_eq_foldl, List.foldl_cons,
      foldl_subtotal_start l (subtotalStep (some 0) it), getSubtotal_eq_foldl]
    simp [subtotalStep, jsAdd_zero_left]

/-- Witness for C8: swapping the two items of a cart leaves the subtotal
unchanged, and a duplicated item (same identifier) is counted twice. -/
theorem getSubtotal_perm_and_dup_witness :
    getSubtotal [⟨1, some 4, some 50⟩, ⟨2, some 2, some 30⟩] =
      getSubtotal [⟨2, some 2, some 30⟩, ⟨1, some 4, some 50⟩] ∧
    getSubtotal [⟨1, some 4, some 50⟩, ⟨1, some 4, some 50⟩] =
      jsAdd (jsMul (some 4) (some 50)) (getSubtotal [⟨1, some 4, some 50⟩]) := by
  have h := getSubtotal_perm_and_dup
    [⟨1, some 4, some 50⟩, ⟨2, some 2, some 30⟩]
    [⟨2, some 2, some 30⟩, ⟨1, some 4, some 50⟩]
    (List.Perm.swap _ _ _)
  exact ⟨h.1, h.2 ⟨1, some 4, some 50⟩ [⟨1, some 4, some 50⟩]⟩

/-- C10: the subtotal is a homomorphism over list concatenation — for
lists of items whose quantity and price fields are present, the
subtotal of `xs ++ ys` is the sum of the subtotals of `xs` and `ys`. -/
theorem getSubtotal_append (xs ys : List LineItem)
    (h : ∀ it ∈ xs ++ ys, it.quantity.isSome ∧ it.price.isSome) :
    ∃ a b : Rat, getSubtotal xs = some a ∧ getSubtotal ys = some b ∧
      getSubtotal (xs ++ ys) = some (a + b) := by
  have hx : ∀ it ∈ xs, it.quantity.isSome ∧ it.price.isSome :=
    fun it hit => h it (List.mem_append_left _ hit)
  have hy : ∀ it ∈ ys, it.quantity.isSome ∧ it.price.isSome :=
    fun it hit => h it (List.mem_append_right _ hit)
  refine ⟨specSubtotal xs, specSubtotal ys, ?_, ?_, ?_⟩
  · rw [getSubtotal_eq_foldl]; simpa using foldl_subtotal_wf xs hx 0
  · rw [getSubtotal_eq_foldl]; simpa using foldl_subtotal_wf ys hy 0
  · rw [getSubtotal_eq_foldl]
    have := foldl_subtotal_wf (xs ++ ys) h 0
    rw [this]
    simp [specSubtotal]

/-- Witness for C10 on two singleton carts: 4 × 50 plus 2 × 30 is the
subtotal of the concatenated cart. -/
theorem getSubtotal_append_witness :
    ∃ a b : Rat, getSubtotal [⟨1, some 4, some 50⟩] = some a ∧
      getSubtotal [⟨2, some 2, some 30⟩] = some b ∧
      getSubtotal ([⟨1, some 4, some 50⟩] ++ [⟨2, some 2, some 30⟩]) = some (a + b) := by
  refine getSubtotal_append _ _ ?_
  intro it hit
  simp only [List.cons_append, List.nil_append, List.mem_cons,
    List.not_mem_nil, or_false] at hit
  rcases hit with h | h <;> subst h <;> exact ⟨rfl, rfl⟩

/-- A parsed JSON value as the tax code sees it: `undefined` models the
`undefined` body a transport error leaves behind, `num` a numeric
value, `obj` an object with numeric fields. -/
inductive JsValue where
  | undefined : JsValue
  | num : Rat → JsValue
  | obj : List (String × Rat) → JsValue
deriving DecidableEq

/-- Field lookup in the field list of a JSON object. -/
def lookupField : List (String × Rat) → String → Option Rat
  | [], _ => none
  | (k, v) :: rest, key => if k = key then some v else lookupField rest key

/-- JS property access `v.key`, yielding a JSON value: `undefined` when
the field is absent or the value is not an object. -/
def getField (v : JsValue) (key : String) : JsValue :=
  match v with
  | .obj fields =>
    match lookupField fields key with
    | some q => .num q
    | none => .undefined
  | _ => .undefined

/-- The `amount` field of a delivered tax result, when present. -/
def getAmount (v : JsValue) : Option Rat :=
  match v with
  | .obj fields => lookupField fields "amount"
  | _ => none

/-- The `(error, response.statusCode, body)` triple the `request`
library hands to its callback: `error` is the truthiness of the error
argument, `body` the parsed response body (`undefined` on a transport
error). -/
structure HttpResult where
  error : Bool
  statusCode : Int
  body : JsValue
deriving DecidableEq

/-- The outgoing POST of the part-2 tax module: fixed url and method,
JSON body carrying the one field `subtotal`. -/
structure TaxRequest where
  url : String
  method : String
  subtotal : Rat
deriving DecidableEq

/-- The request `calculate` builds for a given subtotal:
`POST https://some-tax-service.com/request` with body `subtotal`. -/
def taxServiceRequest (subtotal : Rat) : TaxRequest :=
  ⟨"https://some-tax-service.com/request", "POST", subtotal⟩

/-- The non-CA result object `\x7b amount: 0 \x7d`. -/
def amountZeroBody : JsValue := .obj [("amount", 0)]

/-- `calculate(subtotal, state, done)` of the part-2 tax module: if
`state !== 'CA'`, call `done(\x7b amount: 0 \x7d)` and stop; otherwise
post the request and, when the transport answers, call `done(body)`
unconditionally. The transport is a `world` mapping the request to an
optional result (`none`: no response ever arrives). The return value
pairs the issued requests with the values passed to `done`, in order. -/
def calculate (subtotal : Rat) (state : String)
    (world : TaxRequest → Option HttpResult) :
    List TaxRequest × List JsValue :=
  if state ≠ "CA" then
    ([], [amountZeroBody])
  else
    match world (taxServiceRequest subtotal) with
    | some res => ([taxServiceRequest subtotal], [res.body])
    | none => ([taxServiceRequest subtotal], [])

/-- C2: for every subtotal ≥ 0 and every state other than "CA",
`calculate` issues no request and calls the callback once with the
`\x7b amount: 0 \x7d` object. -/
theorem calculate_nonCA (subtotal : Rat) (state : String)
    (world : TaxRequest → Option HttpResult)
    (_hsub : 0 ≤ subtotal) (hst : state ≠ "CA") :
    calculate subtotal state world = ([], [amountZeroBody]) := by
  simp [calculate, hst]

/-- Witness for C2: `calculate(100, 'NY')` against a dead transport. -/
theorem calculate_nonCA_witness :
    calculate 100 "NY" (fun _ => none) = ([], [amountZeroBody]) :=
  calculate_nonCA 100 "NY" (fun _ => none) (by norm_num) (by decide)

/-- C3: for every subtotal, on the "CA" path `calculate` issues exactly
one request — whose JSON body field `subtotal` equals the input
subtotal — and, when the transport answers, calls the callback with the
response body verbatim. -/
theorem calculate_CA (subtotal : Rat) (world : TaxRequest → Option HttpResult)
    (res : HttpResult) (hw : world (taxServiceRequest subtotal) = some res) :
    calculate subtotal "CA" world = ([taxServiceRequest subtotal], [res.body]) ∧
    (taxServiceRequest subtotal).subtotal = subtotal := by
  refine ⟨?_, rfl⟩
  simp [calculate, hw]

/-- Witness for C3 at the tutorial scenario C: `calculate(500, 'CA')`
with response `\x7b amount: 7 \x7d` delivers that body. -/
theorem calculate_CA_witness :
    calculate 500 "CA" (fun _ => some ⟨false, 200, .obj [("amount", 7)]⟩) =
      ([taxServiceRequest 500], [JsValue.obj [("amount", 7)]]) ∧
    (taxServiceRequest 500).subtotal = 500 :=
  calculate_CA 500 (fun _ => some ⟨false, 200, .obj [("amount", 7)]⟩)
    ⟨false, 200, .obj [("amount", 7)]⟩ rfl

/-- C6: the callback of `calculate` is invoked at most once on every
path, and exactly once on every resolved path — the non-CA
short-circuit, and the "CA" path once a response arrives. -/
theorem calculate_once (subtotal : Rat) (state : String)
    (world : TaxRequest → Option HttpResult) :
    (calculate subtotal state world).2.length ≤ 1 ∧
    ((state ≠ "CA" ∨ (world (taxServiceRequest subtotal)).isSome) →
      (calculate subtotal state world).2.length = 1) := by
  by_cases hst : state = "CA"
  · subst hst
    cases hw : world (taxServiceRequest subtotal) <;>
      simp [calculate, hw]
  · simp [calculate, hst]

/-- Witness for C6: the non-CA short-circuit resolves with exactly one
callback invocation. -/
theorem calculate_once_witness :
    (calculate 100 "NY" (fun _ => none)).2.length = 1 :=
  (calculate_once 100 "NY" (fun _ => none)).2 (Or.inl (by decide))

/-- C9: the taxable-jurisdiction test is exact, case-sensitive string
equality with "CA": every other state string — "ca", "Ca" and
whitespace-padded variants included — takes the zero-tax path with no
outbound request. -/
theorem calculate_exact_match (subtotal : Rat) (state : String)
    (world : TaxRequest → Option HttpResult) (hst : state ≠ "CA") :
    (calculate subtotal state world).1 = [] ∧
    (calculate subtotal state world).2 = [amountZeroBody] := by
  simp [calculate, hst]

/-- Witness for C9 at "ca", "Ca" and " CA": all take the no-request,
zero-amount path. -/
theorem calculate_exact_match_witness :
    ((calculate 100 "ca" (fun _ => none)).1 = [] ∧
      (calculate 100 "ca" (fun _ => none)).2 = [amountZeroBody]) ∧
    ((calculate 100 "Ca" (fun _ => none)).1 = [] ∧
      (calculate 100 "Ca" (fun _ => none)).2 = [amountZeroBody]) ∧
    ((calculate 100 " CA" (fun _ => none)).1 = [] ∧
      (calculate 100 " CA" (fun _ => none)).2 = [amountZeroBody]) :=
  ⟨calculate_exact_match 100 "ca" (fun _ => none) (by decide),
   calculate_exact_match 100 "Ca" (fun _ => none) (by decide),
   calculate_exact_match 100 " CA" (fun _ => none) (by decide)⟩

/-- The outgoing POST of `CartSummary.prototype.getTax`: fixed url and
method, JSON body carrying `subtotal` (a JS number that can be `NaN`
when an item field is missing). -/
structure ExactorRequest where
  url : String
  method : String
  subtotal : JSNum
deriving DecidableEq

/-- The request `getTax` builds:
`POST https://taxrequest.exactor.com/request/json` with body
`this.getSubtotal()`. -/
def exactorRequest (items : List LineItem) : ExactorRequest :=
  ⟨"https://taxrequest.exactor.com/request/json", "POST", getSubtotal items⟩

/-- `CartSummary.prototype.getTax(done)` from `src/cart-summary.js`:
always posts the subtotal, and in the transport callback invokes
`done(body.tax)` only when there is no error and the status code
is 200; on any other outcome it does nothing. -/
def getTax (items : List LineItem) (world : ExactorRequest → Option HttpResult) :
    List ExactorRequest × List JsValue :=
  match world (exactorRequest items) with
  | some res =>
    if res.error = false ∧ res.statusCode = 200 then
      ([exactorRequest items], [getField res.body "tax"])
    else
      ([exactorRequest items], [])
  | none => ([exactorRequest items], [])

/-- A transport that fails every request with a transport error (the
`request` library then passes an undefined body). -/
def errorWorld : TaxRequest → Option HttpResult :=
  fun _ => some ⟨true, 0, .undefined⟩

/-- C5 counterexample: on a transport error, `tax.calculate` on the
"CA" path still invokes its completion callback — with the undefined
body — so the callback is not "never invoked" on failures. -/
theorem calculate_calls_on_error :
    (calculate 100 "CA" errorWorld).2 = [JsValue.undefined] ∧
    (calculate 100 "CA" errorWorld).2 ≠ [] := by
  refine ⟨rfl, ?_⟩
  decide

/-- C5 (amended): the two versions differ. For `CartSummary.getTax`, a
transport error or a non-200 status leaves the callback uninvoked; for
`tax.calculate` on the "CA" path, the callback is invoked with the raw
response body regardless of error or status. -/
theorem tax_failure_callback :
    (∀ (items : List LineItem) (world : ExactorRequest → Option HttpResult)
        (res : HttpResult), world (exactorRequest items) = some res →
        (res.error = true ∨ res.statusCode ≠ 200) →
        (getTax items world).2 = []) ∧
    (∀ (subtotal : Rat) (world : TaxRequest → Option HttpResult)
        (res : HttpResult), world (taxServiceRequest subtotal) = some res →
        (calculate subtotal "CA" world).2 = [res.body]) := by
  constructor
  · intro items world res hw hfail
    have hcond : ¬(res.error = false ∧ res.statusCode = 200) := by
      rcases hfail with h | h
      · exact fun hc => by simp [h] at hc
      · exact fun hc => h hc.2
    simp [getTax, hw, hcond]
  · intro subtotal world res hw
    simp [calculate, hw]

/-- Witness for C5 (amended): a 500-status response leaves the `getTax`
callback uninvoked, while the same failing transport still gets the
`calculate` callback invoked with the body. -/
theorem tax_failure_callback_witness :
    (getTax [] (fun _ => some ⟨false, 500, .undefined⟩)).2 = [] ∧
    (calculate 100 "CA" errorWorld).2 = [JsValue.undefined] :=
  ⟨tax_failure_callback.1 [] (fun _ => some ⟨false, 500, .undefined⟩)
      ⟨false, 500, .undefined⟩ rfl (Or.inr (by decide)),
   tax_failure_callback.2 100 errorWorld ⟨true, 0, .undefined⟩ rfl⟩

/-- A transport that answers 200 with an object that has no `amount`
field. -/
def noAmountWorld : TaxRequest → Option HttpResult :=
  fun _ => some ⟨false, 200, .obj []⟩

/-- C7 counterexample: when the tax service answers 200 with a body
lacking the `amount` field, `tax.calculate` delivers that body
verbatim, so the delivered result does not have `amount` present. -/
theorem calculate_amount_absent :
    (calculate 100 "CA" noAmountWorld).2 = [JsValue.obj []] ∧
    getAmount (JsValue.obj []) = none := ⟨rfl, rfl⟩

/-- C7 (amended): on the non-CA path the delivered result always has
the `amount` field present, equal to 0 and non-negative; on the "CA"
path the delivered value is the response body verbatim, so its
`amount` field is exactly the `amount` field of the response body
(present only when the response carries it). -/
theorem calculate_amount_field :
    (∀ (subtotal : Rat) (state : String)
        (world : TaxRequest → Option HttpResult), state ≠ "CA" →
        (calculate subtotal state world).2 = [amountZeroBody] ∧
        getAmount amountZeroBody = some 0 ∧ (0 : Rat) ≤ 0) ∧
    (∀ (subtotal : Rat) (world : TaxRequest → Option HttpResult)
        (res : HttpResult), world (taxServiceRequest subtotal) = some res →
        (calculate subtotal "CA" world).2.map getAmount = [getAmount res.body]) := by
  constructor
  · intro subtotal state world hst
    exact ⟨by simp [calculate, hst], rfl, le_refl 0⟩
  · intro subtotal world res hw
    simp [calculate, hw]

/-- Witness for C7 (amended): `calculate(100, 'NY')` delivers amount 0,
and a "CA" response with `amount` 7 delivers amount 7. -/
theorem calculate_amount_field_witness :
    ((calculate 100 "NY" (fun _ => none)).2 = [amountZeroBody] ∧
      getAmount amountZeroBody = some 0 ∧ (0 : Rat) ≤ 0) ∧
    (calculate 500 "CA" (fun _ => some ⟨false, 200, .obj [("amount", 7)]⟩)).2.map
        getAmount = [getAmount (JsValue.obj [("amount", 7)])] :=
  ⟨calculate_amount_field.1 100 "NY" (fun _ => none) (by decide),
   calculate_amount_field.2 500 (fun _ => some ⟨false, 200, .obj [("amount", 7)]⟩)
     ⟨false, 200, .obj [("amount", 7)]⟩ rfl⟩

end NodeTesting
